import Mathlib

set_option maxHeartbeats 1000000

/-
Shallow embedding of the RMS-norm operator of
src/example/transformers/ext/DynamicDispatch/src/ops/mladfrmsnorm/mladfrmsnorm.cpp
(namespace ryzenai, template class rms_norm<LhsT, WtsT, OutT>, instantiated as
rms_norm<uint16_t, uint16_t, uint16_t>).

Machine integers: shapes are std::size_t / int values that stay far below any
overflow boundary in this operator (the largest product is 2048 * 4096 * 2);
they are embedded as Nat.  Buffers hold uint16_t elements, embedded as lists of
Nat at element granularity (one element = 2 bytes = sizeof(uint16_t)).
Fallible C++ code (std::runtime_error, std::vector::at) is embedded as
Except / an error component in the result.
-/

namespace RyzenAI

/-- A caller-owned tensor view (struct Tensor of the op interface): a shape
(list of dimension sizes) and the element data the `data` pointer points at.
Elements are uint16_t bit patterns, modelled as Nat. -/
structure Tensor where
  shape : List Nat
  data : List Nat
deriving Repr, DecidableEq

/-- Embeds `extract_MK` (mladfrmsnorm.cpp lines 37-47): returns the pair
(M, K) = (shape[0], shape[1]) of a rank-2 tensor and throws
`std::runtime_error` for any other rank. -/
def extract_MK (input : Tensor) : Except String (Nat × Nat) :=
  if input.shape.length ≠ 2 then
    Except.error "rmsnorm expects a rank 2 tensor [Rows,Cols]"
  else
    Except.ok (input.shape.getD 0 0, input.shape.getD 1 0)

/-- Association-list lookup, embedding `std::map::find` (None = end iterator). -/
def mapFind {α : Type} (m : List (String × α)) (k : String) : Option α :=
  (m.find? (fun p => p.fst == k)).map Prod.snd

/-- The supported-shape table entry the constructor installs under key
"rmsnorm_a16" (mladfrmsnorm.cpp lines 136-141). -/
def rmsnorm_a16_shapes : List (Nat × Nat) :=
  [(2048, 4096), (1024, 4096), (512, 4096), (256, 4096), (128, 4096)]

/-- The mutable per-instance state of `rms_norm<uint16_t, uint16_t, uint16_t>`.
The field `txn_fname_pfx_` embeds the source member `txn_fname_prefix_`
(renamed only because of a lexical restriction on the suffix of the name).
The XRT buffer objects `a_bo_`, `b_bo_`, `c_bo_` are modelled by their host
visible contents (element lists) plus their allocated byte sizes. -/
structure RmsNorm where
  operand_dtype_ : String
  operand_dtype_size_ : Nat
  txnbin_operand_header : List (String × String)
  txn_fname_pfx_ : String
  default_shapes_ : List (String × List (Nat × Nat))
  rms_norm_id_ : Nat
  a_bo_size_ : Nat
  b_bo_size_ : Nat
  c_bo_size_ : Nat
  a_bo_ : List Nat
  b_bo_ : List Nat
  c_bo_ : List Nat
  operand_size_in_bytes_ : Nat
  wts_size_in_bytes_ : Nat
  a_copy_time_ : Nat
  a_sync_time_ : Nat
  b_copy_time_ : Nat
  b_sync_time_ : Nat
  c_copy_time_ : Nat
  c_sync_time_ : Nat
  run_aie_time_ : Nat
  num_run_aie_ : Nat
deriving Repr, DecidableEq

/-- Embeds `rms_norm::isSupportedShape` (mladfrmsnorm.cpp lines 50-61): look up
the supported-shape list for the instance variant key, extract (M, K) from the
operand (which throws on rank other than 2) and test exact membership.
The source dereferences the `find` iterator without checking it; for a
constructed instance the key is always present (see `rms_norm_ctor`), and the
absent case — undefined behaviour in C++ — is modelled as the empty list.
The C++ method only reads instance state; it is embedded as a pure function. -/
def isSupportedShape (inst : RmsNorm) (operand : Tensor) : Except String Bool :=
  let supported_shapes := (mapFind inst.default_shapes_ inst.txn_fname_pfx_).getD []
  match extract_MK operand with
  | Except.error e => Except.error e
  | Except.ok shape_operand => Except.ok (supported_shapes.contains shape_operand)

/-- Embeds `rms_norm::get_instr_key` (mladfrmsnorm.cpp lines 78-82). -/
def get_instr_key (pfx : String) (m k : Nat) : String :=
  "mladfrmsnorm_" ++ pfx ++ "_" ++ toString m ++ "_" ++ toString k

/-- Process-wide state shared by all instances of the template instantiation:
the static invocation id counter `rms_norm_count` (line 67), the static
`std::once_flag instr_reg_flag_` (lines 69-70) and the instruction registry
contents.  `setup_calls` counts how many times `setup_instr_registry` has run
in the process, so that one-time execution is observable. -/
structure ProcState where
  rms_norm_count : Nat
  instr_reg_flag_done : Bool
  registered_keys : List String
  setup_calls : Nat
deriving Repr, DecidableEq

/-- Embeds `rms_norm::setup_instr_registry` (mladfrmsnorm.cpp lines 84-100):
enumerate the supported shapes of the instance variant key, build one
instruction key per shape and register them all (`add_instructions`).
`instruction_registry` itself is declared in utils/instruction_registry.hpp,
which is not under src/; registration is modelled as appending the keys to the
process-wide registered-key list. -/
def setup_instr_registry (inst : RmsNorm) (p : ProcState) : ProcState :=
  let supported_shapes := (mapFind inst.default_shapes_ inst.txn_fname_pfx_).getD []
  let instructions := supported_shapes.map
    (fun t => get_instr_key inst.txn_fname_pfx_ t.1 t.2)
  { p with registered_keys := p.registered_keys ++ instructions,
           setup_calls := p.setup_calls + 1 }

/-- Observable effects of a construction: device-context acquisition
(`xrt_context::get_instance`) and a run of `setup_instr_registry`. -/
inductive CEvent where
  | devAcquire
  | regSetup
deriving Repr, DecidableEq

/-- Result of running the constructor: its event trace, the process state after
it, and either the constructed instance or the thrown error message. -/
structure CtorResult where
  trace : List CEvent
  proc : ProcState
  res : Except String RmsNorm
deriving Repr

/-- Embeds the constructor `rms_norm::rms_norm(operand_dtype, load_xrt)`
(mladfrmsnorm.cpp lines 125-178): reject any dtype other than "bfloat16"
before anything else; install the supported-shape table under "rmsnorm_a16";
take the next static instance id; build the variant key
"rmsnorm_" + header.at(dtype); if `load_xrt`, acquire the device context and
run `setup_instr_registry` under the static once-flag; zero all timing fields.
`sizeof(uint16_t) = 2`.  The once-per-process logger header (lines 164-172)
has no bearing on any claim and is not modelled. -/
def rms_norm_ctor (operand_dtype : String) (load_xrt : Bool) (p : ProcState) :
    CtorResult :=
  if operand_dtype ≠ "bfloat16" then
    ⟨[], p, Except.error
      "rmsnorm only supportes homogeneous bfloat16 data type for activation, weights matrices and result"⟩
  else
    let txnbin_operand_header : List (String × String) := [("bfloat16", "a16")]
    let default_shapes : List (String × List (Nat × Nat)) :=
      [("rmsnorm_a16", rmsnorm_a16_shapes)]
    let rms_norm_id := p.rms_norm_count
    let p1 := { p with rms_norm_count := p.rms_norm_count + 1 }
    let txn_fname_pfx :=
      "rmsnorm_" ++ (mapFind txnbin_operand_header operand_dtype).getD ""
    let inst : RmsNorm :=
      { operand_dtype_ := operand_dtype
        operand_dtype_size_ := 2
        txnbin_operand_header := txnbin_operand_header
        txn_fname_pfx_ := txn_fname_pfx
        default_shapes_ := default_shapes
        rms_norm_id_ := rms_norm_id
        a_bo_size_ := 0
        b_bo_size_ := 0
        c_bo_size_ := 0
        a_bo_ := []
        b_bo_ := []
        c_bo_ := []
        operand_size_in_bytes_ := 0
        wts_size_in_bytes_ := 0
        a_copy_time_ := 0
        a_sync_time_ := 0
        b_copy_time_ := 0
        b_sync_time_ := 0
        c_copy_time_ := 0
        c_sync_time_ := 0
        run_aie_time_ := 0
        num_run_aie_ := 0 }
    if load_xrt then
      if p1.instr_reg_flag_done then
        ⟨[CEvent.devAcquire], p1, Except.ok inst⟩
      else
        let p2 := setup_instr_registry inst { p1 with instr_reg_flag_done := true }
        ⟨[CEvent.devAcquire, CEvent.regSetup], p2, Except.ok inst⟩
    else
      ⟨[], p1, Except.ok inst⟩

/-- Modelled from the spec: `utils::running_product_with_skips` is declared in
utils/utils.hpp, which is not under src/.  Per the spec (§4.4, §8) the element
count of a shape is the product of its dimensions, with the listed axes
excluded from the product. -/
def running_product_with_skips (shape : List Nat) (skips : List Nat) : Nat :=
  shape.enum.foldl (fun acc p => if skips.contains p.1 then acc else acc * p.2) 1

/-- Modelled from the spec: `utils::max_element_count_with_skips` is declared
in utils/utils.hpp, which is not under src/.  Per the spec (§4.4 Buffer
Manager) it is the maximum over the given shapes of the element count with the
listed axes skipped. -/
def max_element_count_with_skips (shapes : List (List Nat)) (skips : List Nat) : Nat :=
  (shapes.map (fun s => running_product_with_skips s skips)).foldl max 0

/-- Embeds `utils::tuple_to_vector` on a 2-tuple (declared in utils/utils.hpp,
not under src/; the call sites require exactly the list of both components). -/
def tuple_to_vector (t : Nat × Nat) : List Nat :=
  [t.1, t.2]

/-- Embeds `rms_norm::initialize_const_params` (mladfrmsnorm.cpp lines
101-123), renamed only because of a lexical restriction: build the shape list
of `default_shapes_["rmsnorm_a16"]`, size the operand requirement as the
maximal element count over all supported shapes times the element size, the
weight requirement as the maximal element count with axis 0 skipped, and
allocate `a_bo_` and `c_bo_` at the operand size and `b_bo_` at the weight
size.  (`operator[]` default-constructs an empty vector for an absent key,
hence `getD []`.) -/
def init_const_params (inst : RmsNorm) : RmsNorm :=
  let shape_vector :=
    ((mapFind inst.default_shapes_ "rmsnorm_a16").getD []).map tuple_to_vector
  let operand_size_in_bytes :=
    max_element_count_with_skips shape_vector [] * inst.operand_dtype_size_
  let wts_size_in_bytes :=
    max_element_count_with_skips shape_vector [0] * inst.operand_dtype_size_
  { inst with a_bo_size_ := operand_size_in_bytes,
              b_bo_size_ := wts_size_in_bytes,
              c_bo_size_ := operand_size_in_bytes }

/-- memcpy of `n` elements from `src` into the front of `dst` (the source
copies `n * sizeof(uint16_t)` bytes; buffers are modelled at element
granularity).  A source shorter than `n` would be an out-of-bounds read in
C++; the model copies the available prefix. -/
def memcpy_elems (dst src : List Nat) (n : Nat) : List Nat :=
  src.take n ++ dst.drop n

/-- The measured wall-clock durations of one `execute` call, supplied as an
oracle because real elapsed times are not computable from the program text. -/
structure Timing where
  aCopy : Nat
  aSync : Nat
  bCopy : Nat
  bSync : Nat
  runAie : Nat
  cSync : Nat
  cCopy : Nat
deriving Repr, DecidableEq

/-- Errors `execute` and `get_buffer_reqs` can throw: `std::out_of_range`
from `std::vector::at`, and `std::runtime_error`. -/
inductive ExecError where
  | outOfRange (msg : String)
  | runtime (msg : String)
deriving Repr, DecidableEq

/-- Buffer and device interactions of one `execute` call, in program order.
Copy events carry the byte count passed to memcpy. -/
inductive Event where
  | copyA (bytes : Nat)
  | syncA
  | copyB (bytes : Nat)
  | syncB
  | launch
  | syncC
  | copyC (bytes : Nat)
deriving Repr, DecidableEq

/-- Result of one `execute` call: the event trace up to return or throw, the
instance state afterwards (a thrown C++ exception leaves the object alive with
every mutation made so far), the output tensor list, and the thrown error if
any. -/
structure ExecResult where
  trace : List Event
  inst : RmsNorm
  outs : List Tensor
  err : Option ExecError
deriving Repr, DecidableEq

/-- Embeds the reset block at the top of `rms_norm::execute`
(mladfrmsnorm.cpp lines 188-195): the eight timing/counter fields are zeroed
before anything else in the call, in particular before shape validation. -/
def resetTimers (inst : RmsNorm) : RmsNorm :=
  { inst with a_copy_time_ := 0, a_sync_time_ := 0,
              b_copy_time_ := 0, b_sync_time_ := 0,
              c_copy_time_ := 0, c_sync_time_ := 0,
              run_aie_time_ := 0, num_run_aie_ := 0 }

/-- Embeds the input-A staging stage of `rms_norm::execute` (lines 202-217):
set `operand_size_in_bytes_` from the actual shape of input 0, memcpy that
many bytes into `a_bo_`, sync to device, record the copy and sync times. -/
def stageA (inst : RmsNorm) (in0 : Tensor) (t : Timing) : RmsNorm :=
  let numA := running_product_with_skips in0.shape []
  { inst with operand_size_in_bytes_ := numA * inst.operand_dtype_size_,
              a_bo_ := memcpy_elems inst.a_bo_ in0.data numA,
              a_copy_time_ := t.aCopy, a_sync_time_ := t.aSync }

/-- Embeds the weights staging stage of `rms_norm::execute` (lines 219-233):
set `wts_size_in_bytes_` from the actual shape of input 1, memcpy into
`b_bo_`, sync to device, record the copy and sync times. -/
def stageB (inst : RmsNorm) (in1 : Tensor) (t : Timing) : RmsNorm :=
  let numB := running_product_with_skips in1.shape []
  { inst with wts_size_in_bytes_ := numB * inst.operand_dtype_size_,
              b_bo_ := memcpy_elems inst.b_bo_ in1.data numB,
              b_copy_time_ := t.bCopy, b_sync_time_ := t.bSync }

/-- Embeds the kernel launch stage of `rms_norm::execute` (lines 241-252):
run and wait, accumulate the run time, increment `num_run_aie_`. -/
def stageLaunch (inst : RmsNorm) (t : Timing) : RmsNorm :=
  { inst with run_aie_time_ := inst.run_aie_time_ + t.runAie,
              num_run_aie_ := inst.num_run_aie_ + 1 }

/-- Embeds the output sync stage of `rms_norm::execute` (lines 254-258): sync
`c_bo_` from the device — its host-visible content becomes whatever the
hardware produced, the oracle `deviceOut` — and accumulate the sync time. -/
def stageSyncC (inst : RmsNorm) (deviceOut : List Nat) (t : Timing) : RmsNorm :=
  { inst with c_bo_ := deviceOut, c_sync_time_ := inst.c_sync_time_ + t.cSync }

/-- Embeds `rms_norm::execute` (mladfrmsnorm.cpp lines 180-279).
Program order: read `input.at(0)` and `input.at(1)` (std::out_of_range when
absent); zero the eight timing/counter fields (`resetTimers`); validate the
primary shape via `isSupportedShape` (throws on rank other than 2,
`std::runtime_error` when unsupported); stage input A (`stageA`); stage the
weights (`stageB`); build the instruction key and look it up
(`instruction_registry::get_instr_bo`, not under src/, modelled from the spec
as a lookup that throws a lookup error when the key has no loaded blob — the
`lookup` parameter); launch the kernel and wait (`stageLaunch`); sync `c_bo_`
from the device (`stageSyncC`); read `output.at(0)` (std::out_of_range when
absent); copy `operand_size_in_bytes_` bytes from `c_bo_` into the output
tensor and record the copy time.  The final log line (lines 269-278) writes
no instance state and is not modelled. -/
def execute (inst : RmsNorm) (lookup : String → Option (List Nat))
    (deviceOut : List Nat) (t : Timing)
    (input : List Tensor) (output : List Tensor) : ExecResult :=
  match input[0]?, input[1]? with
  | none, _ => ⟨[], inst, output, some (ExecError.outOfRange "vector::at")⟩
  | some _, none => ⟨[], inst, output, some (ExecError.outOfRange "vector::at")⟩
  | some in0, some in1 =>
    let inst1 := resetTimers inst
    match isSupportedShape inst1 in0 with
    | Except.error e => ⟨[], inst1, output, some (ExecError.runtime e)⟩
    | Except.ok false =>
      ⟨[], inst1, output, some (ExecError.runtime "Unsupported shape for rmsnorm")⟩
    | Except.ok true =>
      let inst2 := stageA inst1 in0 t
      let inst3 := stageB inst2 in1 t
      let tr0 := [Event.copyA inst2.operand_size_in_bytes_, Event.syncA,
                  Event.copyB inst3.wts_size_in_bytes_, Event.syncB]
      let instr_bo_key := get_instr_key inst3.txn_fname_pfx_
        (in0.shape.getD 0 0) (in0.shape.getD 1 0)
      match lookup instr_bo_key with
      | none =>
        ⟨tr0, inst3, output,
         some (ExecError.runtime ("no instruction buffer for key " ++ instr_bo_key))⟩
      | some _instr_bo =>
        let inst4 := stageLaunch inst3 t
        let inst5 := stageSyncC inst4 deviceOut t
        match output[0]? with
        | none =>
          ⟨tr0 ++ [Event.launch, Event.syncC], inst5, output,
           some (ExecError.outOfRange "vector::at")⟩
        | some out0 =>
          let numC := inst5.operand_size_in_bytes_ / inst5.operand_dtype_size_
          let out0c := { out0 with data := memcpy_elems out0.data inst5.c_bo_ numC }
          let inst6 := { inst5 with c_copy_time_ := t.cCopy }
          ⟨tr0 ++ [Event.launch, Event.syncC, Event.copyC inst5.operand_size_in_bytes_],
           inst6, output.set 0 out0c, none⟩

/-- Argument roles of `OpArgMap` (ops/op_interface.hpp, not under src/); only
the two roles used at the call site are modelled. -/
inductive OpArgType where
  | INPUT
  | OUTPUT
deriving Repr, DecidableEq

/-- Modelled from the spec: `OpArgMap` is declared in ops/op_interface.hpp,
which is not under src/.  Per the spec (§6, buffer-requirements query) an
entry is a (role, byte-size) pair; the three numeric fields between role and
size follow the brace-initialization at the call site (xrt argument index,
onnx argument index, offset). -/
structure OpArgMap where
  arg_type : OpArgType
  xrt_arg_idx : Nat
  onnx_arg_idx : Nat
  offset : Nat
  size : Nat
deriving Repr, DecidableEq

/-- Embeds `rms_norm::get_buffer_reqs` (mladfrmsnorm.cpp lines 303-333) for
the uint16 instantiation (`sizeof(LhsT) = sizeof(WtsT) = sizeof(OutT) = 2`):
extract (M, K) of input 0, read the weight length `input.at(1).shape.at(0)`,
extract (M, K) of output 0; throw when operand and result shapes differ or
when the weight length differs from the result column count; otherwise return
the three OpArgMap entries.  The function reads no instance state and mutates
nothing; it is embedded as a pure function. -/
def get_buffer_reqs (input output : List Tensor) : Except ExecError (List OpArgMap) :=
  match input[0]? with
  | none => Except.error (ExecError.outOfRange "vector::at")
  | some in0 =>
    match extract_MK in0 with
    | Except.error e => Except.error (ExecError.runtime e)
    | Except.ok shape_operand =>
      match input[1]? with
      | none => Except.error (ExecError.outOfRange "vector::at")
      | some in1 =>
        match in1.shape[0]? with
        | none => Except.error (ExecError.outOfRange "vector::at")
        | some shape_wts =>
          match output[0]? with
          | none => Except.error (ExecError.outOfRange "vector::at")
          | some out0 =>
            match extract_MK out0 with
            | Except.error e => Except.error (ExecError.runtime e)
            | Except.ok shape_result =>
              if shape_operand ≠ shape_result then
                Except.error (ExecError.runtime
                  "mismatch shape of activation and result not supported for rmsnorm\n")
              else if shape_result.2 ≠ shape_wts then
                Except.error (ExecError.runtime
                  "Mismatched shape between rmsnorm weights and activation/result not supported for rmsnorm")
              else
                let num_elem_operand :=
                  running_product_with_skips (tuple_to_vector shape_operand) []
                let num_elem_wts := shape_wts
                let input_1_bo_size := num_elem_operand * 2
                let input_2_bo_size := num_elem_wts * 2
                let output_bo_size := num_elem_operand * 2
                Except.ok
                  [⟨OpArgType.INPUT, 0, 0, 0, input_1_bo_size⟩,
                   ⟨OpArgType.INPUT, 1, 1, 0, input_2_bo_size⟩,
                   ⟨OpArgType.OUTPUT, 2, 2, 0, output_bo_size⟩]

/-- A concrete instance exactly as `rms_norm_ctor "bfloat16"` builds it, used
as the evaluation point of witnesses and counterexamples. -/
def testInst : RmsNorm :=
  { operand_dtype_ := "bfloat16"
    operand_dtype_size_ := 2
    txnbin_operand_header := [("bfloat16", "a16")]
    txn_fname_pfx_ := "rmsnorm_a16"
    default_shapes_ := [("rmsnorm_a16", rmsnorm_a16_shapes)]
    rms_norm_id_ := 0
    a_bo_size_ := 0
    b_bo_size_ := 0
    c_bo_size_ := 0
    a_bo_ := []
    b_bo_ := []
    c_bo_ := []
    operand_size_in_bytes_ := 0
    wts_size_in_bytes_ := 0
    a_copy_time_ := 0
    a_sync_time_ := 0
    b_copy_time_ := 0
    b_sync_time_ := 0
    c_copy_time_ := 0
    c_sync_time_ := 0
    run_aie_time_ := 0
    num_run_aie_ := 0 }

/-- A registry lookup oracle that has a loaded blob for every key registered
for the "rmsnorm_a16" variant and nothing else. -/
def lookupAll (key : String) : Option (List Nat) :=
  if (rmsnorm_a16_shapes.map
      (fun t => get_instr_key "rmsnorm_a16" t.1 t.2)).contains key
  then some [0] else none

/-- A registry lookup oracle with no loaded blob at all. -/
def lookupNone (_key : String) : Option (List Nat) :=
  none

/-- A zero timing oracle for concrete evaluations. -/
def timing0 : Timing :=
  ⟨0, 0, 0, 0, 0, 0, 0⟩

deriving instance DecidableEq for Except

/-- Concrete input list with the supported primary shape (128, 4096) and a
weight vector of length 4096 (scenario A of the spec). -/
def inp128 : List Tensor :=
  [⟨[128, 4096], []⟩, ⟨[4096], []⟩]

/-- Concrete input list with the unsupported primary shape (100, 4096)
(scenario B of the spec). -/
def inpBad : List Tensor :=
  [⟨[100, 4096], []⟩, ⟨[4096], []⟩]

/-- Concrete output list with shape (128, 4096). -/
def outT128 : List Tensor :=
  [⟨[128, 4096], []⟩]

/-- Concrete output list whose tensor has shape (1, 1). -/
def outT11 : List Tensor :=
  [⟨[1, 1], [7]⟩]

/-- Shape validation reads only the supported-shape table and the variant key,
which the timer reset does not touch. -/
theorem isSupportedShape_resetTimers (inst : RmsNorm) (x : Tensor) :
    isSupportedShape (resetTimers inst) x = isSupportedShape inst x :=
  rfl

/-- Shape validation is unaffected by the staging, launch and sync stages. -/
theorem isSupportedShape_stages (inst : RmsNorm) (in0 in1 x : Tensor)
    (t t2 : Timing) (deviceOut : List Nat) :
    isSupportedShape
      (stageSyncC (stageLaunch (stageB (stageA (resetTimers inst) in0 t) in1 t) t)
        deviceOut t2) x = isSupportedShape inst x :=
  rfl

/-- With no element at index 0 of the input list, `execute` throws
out_of_range with nothing done. -/
theorem execute_at0_fail (inst : RmsNorm) (lookup : String → Option (List Nat))
    (deviceOut : List Nat) (t : Timing) (input output : List Tensor)
    (h0 : input[0]? = none) :
    execute inst lookup deviceOut t input output =
      ⟨[], inst, output, some (ExecError.outOfRange "vector::at")⟩ := by
  unfold execute
  rw [h0]

/-- With an element at index 0 but none at index 1, `execute` throws
out_of_range with nothing done. -/
theorem execute_at1_fail (inst : RmsNorm) (lookup : String → Option (List Nat))
    (deviceOut : List Nat) (t : Timing) (input output : List Tensor)
    (in0 : Tensor) (h0 : input[0]? = some in0) (h1 : input[1]? = none) :
    execute inst lookup deviceOut t input output =
      ⟨[], inst, output, some (ExecError.outOfRange "vector::at")⟩ := by
  unfold execute
  rw [h0, h1]

/-- When shape validation itself throws (rank other than 2), `execute` stops
with that error, the timers reset and nothing else done. -/
theorem execute_rank_fail (inst : RmsNorm) (lookup : String → Option (List Nat))
    (deviceOut : List Nat) (t : Timing) (input output : List Tensor)
    (in0 in1 : Tensor) (e : String)
    (h0 : input[0]? = some in0) (h1 : input[1]? = some in1)
    (hs : isSupportedShape inst in0 = Except.error e) :
    execute inst lookup deviceOut t input output =
      ⟨[], resetTimers inst, output, some (ExecError.runtime e)⟩ := by
  unfold execute
  rw [h0, h1]
  split
  · simp_all
  · simp_all
  · rename_i a b hA hB
    injection hA with hA2
    injection hB with hB2
    subst hA2
    subst hB2
    simp only [isSupportedShape_resetTimers, hs]

/-- When the primary shape is not in the supported set, `execute` stops with
the unsupported-shape error, the timers reset and nothing else done. -/
theorem execute_unsupported (inst : RmsNorm) (lookup : String → Option (List Nat))
    (deviceOut : List Nat) (t : Timing) (input output : List Tensor)
    (in0 in1 : Tensor)
    (h0 : input[0]? = some in0) (h1 : input[1]? = some in1)
    (hs : isSupportedShape inst in0 = Except.ok false) :
    execute inst lookup deviceOut t input output =
      ⟨[], resetTimers inst, output,
       some (ExecError.runtime "Unsupported shape for rmsnorm")⟩ := by
  unfold execute
  rw [h0, h1]
  split
  · simp_all
  · simp_all
  · rename_i a b hA hB
    injection hA with hA2
    injection hB with hB2
    subst hA2
    subst hB2
    simp only [isSupportedShape_resetTimers, hs]

/-- When the instruction-key lookup fails, `execute` stops after both staging
stages with a lookup error and no launch. -/
theorem execute_lookup_fail (inst : RmsNorm) (lookup : String → Option (List Nat))
    (deviceOut : List Nat) (t : Timing) (input output : List Tensor)
    (in0 in1 : Tensor)
    (h0 : input[0]? = some in0) (h1 : input[1]? = some in1)
    (hs : isSupportedShape inst in0 = Except.ok true)
    (hlk : lookup (get_instr_key inst.txn_fname_pfx_
             (in0.shape.getD 0 0) (in0.shape.getD 1 0)) = none) :
    execute inst lookup deviceOut t input output =
      ⟨[Event.copyA ((stageA (resetTimers inst) in0 t).operand_size_in_bytes_),
        Event.syncA,
        Event.copyB ((stageB (stageA (resetTimers inst) in0 t) in1 t).wts_size_in_bytes_),
        Event.syncB],
       stageB (stageA (resetTimers inst) in0 t) in1 t, output,
       some (ExecError.runtime ("no instruction buffer for key " ++
         get_instr_key inst.txn_fname_pfx_
           (in0.shape.getD 0 0) (in0.shape.getD 1 0)))⟩ := by
  unfold execute
  rw [h0, h1]
  split
  · simp_all
  · simp_all
  · rename_i a b hA hB
    injection hA with hA2
    injection hB with hB2
    subst hA2
    subst hB2
    simp only [isSupportedShape_resetTimers, hs]
    simp only [stageA, stageB, resetTimers]
    rw [hlk]

/-- A successful `execute` call: all seven pipeline events happen in order,
and `operand_size_in_bytes_` — computed from the shape of input 0 — is the
byte count of both the input-A copy and the output copy. -/
theorem execute_success (inst : RmsNorm) (lookup : String → Option (List Nat))
    (deviceOut : List Nat) (t : Timing) (input output : List Tensor)
    (in0 in1 out0 : Tensor) (blob : List Nat)
    (h0 : input[0]? = some in0) (h1 : input[1]? = some in1)
    (hs : isSupportedShape inst in0 = Except.ok true)
    (hlk : lookup (get_instr_key inst.txn_fname_pfx_
             (in0.shape.getD 0 0) (in0.shape.getD 1 0)) = some blob)
    (hout : output[0]? = some out0) :
    execute inst lookup deviceOut t input output =
      ⟨[Event.copyA ((stageA (resetTimers inst) in0 t).operand_size_in_bytes_),
        Event.syncA,
        Event.copyB ((stageB (stageA (resetTimers inst) in0 t) in1 t).wts_size_in_bytes_),
        Event.syncB, Event.launch, Event.syncC,
        Event.copyC ((stageA (resetTimers inst) in0 t).operand_size_in_bytes_)],
       { (stageSyncC (stageLaunch (stageB (stageA (resetTimers inst) in0 t) in1 t) t)
           deviceOut t) with c_copy_time_ := t.cCopy },
       output.set 0
         { out0 with data := (memcpy_elems out0.data deviceOut
             ((stageA (resetTimers inst) in0 t).operand_size_in_bytes_ /
               inst.operand_dtype_size_)) },
       none⟩ := by
  unfold execute
  rw [h0, h1]
  split
  · simp_all
  · simp_all
  · rename_i a b hA hB
    injection hA with hA2
    injection hB with hB2
    subst hA2
    subst hB2
    simp only [isSupportedShape_resetTimers, hs]
    simp only [stageA, stageB, resetTimers]
    rw [hlk]
    rw [hout]
    simp [stageLaunch, stageSyncC, memcpy_elems]

/-- When the output list has no element at index 0, `execute` throws
out_of_range only after staging, launch and output sync. -/
theorem execute_out_fail (inst : RmsNorm) (lookup : String → Option (List Nat))
    (deviceOut : List Nat) (t : Timing) (input output : List Tensor)
    (in0 in1 : Tensor) (blob : List Nat)
    (h0 : input[0]? = some in0) (h1 : input[1]? = some in1)
    (hs : isSupportedShape inst in0 = Except.ok true)
    (hlk : lookup (get_instr_key inst.txn_fname_pfx_
             (in0.shape.getD 0 0) (in0.shape.getD 1 0)) = some blob)
    (hout : output[0]? = none) :
    execute inst lookup deviceOut t input output =
      ⟨[Event.copyA ((stageA (resetTimers inst) in0 t).operand_size_in_bytes_),
        Event.syncA,
        Event.copyB ((stageB (stageA (resetTimers inst) in0 t) in1 t).wts_size_in_bytes_),
        Event.syncB, Event.launch, Event.syncC],
       stageSyncC (stageLaunch (stageB (stageA (resetTimers inst) in0 t) in1 t) t)
         deviceOut t,
       output, some (ExecError.outOfRange "vector::at")⟩ := by
  unfold execute
  rw [h0, h1]
  split
  · simp_all
  · simp_all
  · rename_i a b hA hB
    injection hA with hA2
    injection hB with hB2
    subst hA2
    subst hB2
    simp only [isSupportedShape_resetTimers, hs]
    simp only [stageA, stageB, resetTimers]
    rw [hlk]
    rw [hout]
    simp [stageLaunch, stageSyncC]

/-- The element count of a rank-2 shape with no skipped axis is the product
of its two dimensions. -/
theorem running_product_pair (a b : Nat) :
    running_product_with_skips [a, b] [] = a * b := by
  simp [running_product_with_skips, List.enum, List.enumFrom, List.foldl,
    Nat.one_mul]

/-- C1: for every rank-2 tensor, `isSupportedShape` returns true exactly when
the pair (shape[0], shape[1]) is an entry of the supported-shape table under
the instance variant key, and for every tensor of any other rank it throws
instead of returning; it is a pure function of the instance (embedded without
a state component, as the source method only reads `default_shapes_` and
`txn_fname_prefix_`), so the call leaves the instance state untouched. -/
theorem claim_C1 (inst : RmsNorm) (shapes : List (Nat × Nat)) (t : Tensor)
    (h : mapFind inst.default_shapes_ inst.txn_fname_pfx_ = some shapes) :
    (t.shape.length = 2 →
      (isSupportedShape inst t = Except.ok true ↔
        (t.shape.getD 0 0, t.shape.getD 1 0) ∈ shapes)) ∧
    (t.shape.length ≠ 2 →
      isSupportedShape inst t =
        Except.error "rmsnorm expects a rank 2 tensor [Rows,Cols]") := by
  unfold isSupportedShape extract_MK
  rw [h]
  constructor
  · intro h2
    simp [h2]
  · intro h2
    simp [h2]

/-- C1 witness: (128, 4096) is supported, and a rank-1 tensor throws. -/
theorem claim_C1_witness :
    (isSupportedShape testInst (Tensor.mk [128, 4096] []) = Except.ok true ↔
      ((128, 4096) : Nat × Nat) ∈ rmsnorm_a16_shapes) ∧
    isSupportedShape testInst (Tensor.mk [4096] []) =
      Except.error "rmsnorm expects a rank 2 tensor [Rows,Cols]" :=
  ⟨(claim_C1 testInst rmsnorm_a16_shapes (Tensor.mk [128, 4096] []) rfl).1 rfl,
   (claim_C1 testInst rmsnorm_a16_shapes (Tensor.mk [4096] []) rfl).2 (by decide)⟩

/-- C8: constructing with any dtype tag other than "bfloat16" fails
immediately with the descriptive error — with an empty event trace (so before
any device interaction) and the process state untouched — while constructing
with "bfloat16" never fails on the dtype check. -/
theorem claim_C8 (dtype : String) (load_xrt : Bool) (p : ProcState) :
    (dtype ≠ "bfloat16" →
      rms_norm_ctor dtype load_xrt p =
        ⟨[], p, Except.error
          "rmsnorm only supportes homogeneous bfloat16 data type for activation, weights matrices and result"⟩) ∧
    (dtype = "bfloat16" →
      ∃ inst, (rms_norm_ctor dtype load_xrt p).res = Except.ok inst) := by
  constructor
  · intro hne
    unfold rms_norm_ctor
    simp [hne]
  · intro heq
    subst heq
    unfold rms_norm_ctor
    simp only [ne_eq, not_true_eq_false, if_neg, if_false, reduceIte]
    split
    · split
      · exact ⟨_, rfl⟩
      · exact ⟨_, rfl⟩
    · exact ⟨_, rfl⟩

/-- C8 witness: dtype "int8" is rejected with nothing done; "bfloat16" is
accepted. -/
theorem claim_C8_witness :
    rms_norm_ctor "int8" false ⟨0, false, [], 0⟩ =
      ⟨[], ⟨0, false, [], 0⟩, Except.error
        "rmsnorm only supportes homogeneous bfloat16 data type for activation, weights matrices and result"⟩ ∧
    ∃ inst, (rms_norm_ctor "bfloat16" false ⟨0, false, [], 0⟩).res = Except.ok inst :=
  ⟨(claim_C8 "int8" false ⟨0, false, [], 0⟩).1 (by decide),
   (claim_C8 "bfloat16" false ⟨0, false, [], 0⟩).2 rfl⟩

/-- C10: an `execute` call with fewer than two input tensors throws
out_of_range from the initial `input.at` accesses: the result is exactly the
unmodified instance, the unmodified outputs and an empty event trace, so the
failure happens before shape validation, before any staging-buffer write and
before any device interaction. -/
theorem claim_C10 (inst : RmsNorm) (lookup : String → Option (List Nat))
    (deviceOut : List Nat) (t : Timing) (input output : List Tensor)
    (h : input.length < 2) :
    execute inst lookup deviceOut t input output =
      ⟨[], inst, output, some (ExecError.outOfRange "vector::at")⟩ := by
  match input, h with
  | [], _ =>
    exact execute_at0_fail inst lookup deviceOut t [] output rfl
  | [a], _ =>
    exact execute_at1_fail inst lookup deviceOut t [a] output a rfl rfl
  | a :: b :: rest, h =>
    simp [List.length_cons] at h
    omega

/-- C10 witness: the empty input list throws with nothing done. -/
theorem claim_C10_witness :
    execute testInst lookupAll [] timing0 [] outT128 =
      ⟨[], testInst, outT128, some (ExecError.outOfRange "vector::at")⟩ :=
  claim_C10 testInst lookupAll [] timing0 [] outT128 (by decide)

/-- C2 counterexample: `num_run_aie_` is not monotonically increasing across
the lifetime of an instance — after a first successful call the counter is 1,
and a second successful call leaves it at 1 again, not strictly greater than
before that call (`execute` resets the counter to zero on entry,
mladfrmsnorm.cpp line 195). -/
theorem claim_C2_counterexample :
    (execute testInst lookupAll [] timing0 inp128 outT128).err = none ∧
    (execute testInst lookupAll [] timing0 inp128 outT128).inst.num_run_aie_ = 1 ∧
    (execute (execute testInst lookupAll [] timing0 inp128 outT128).inst
       lookupAll [] timing0 inp128 outT128).err = none ∧
    ¬ ((execute (execute testInst lookupAll [] timing0 inp128 outT128).inst
          lookupAll [] timing0 inp128 outT128).inst.num_run_aie_ >
        (execute testInst lookupAll [] timing0 inp128 outT128).inst.num_run_aie_) := by
  decide

/-- C2 (amended): `num_run_aie_` is a per-call hardware-run counter, not a
lifetime-monotone one: `execute` resets it to zero on entry (before shape
validation) and increments it once per hardware run, so every successful call
ends with the counter equal to 1 and every call rejected by the shape check
ends with it equal to 0 regardless of its previous value — hence it can
decrease across calls. -/
theorem claim_C2 (inst : RmsNorm) (lookup : String → Option (List Nat))
    (deviceOut : List Nat) (t : Timing) (input output : List Tensor)
    (in0 in1 : Tensor)
    (h0 : input[0]? = some in0) (h1 : input[1]? = some in1) :
    ((execute inst lookup deviceOut t input output).err = none →
      (execute inst lookup deviceOut t input output).inst.num_run_aie_ = 1) ∧
    (isSupportedShape inst in0 ≠ Except.ok true →
      (execute inst lookup deviceOut t input output).inst.num_run_aie_ = 0) := by
  constructor
  · intro hnone
    rcases hE : isSupportedShape inst in0 with e | b
    · rw [execute_rank_fail inst lookup deviceOut t input output in0 in1 e h0 h1 hE]
        at hnone
      simp at hnone
    · cases b
      · rw [execute_unsupported inst lookup deviceOut t input output in0 in1 h0 h1 hE]
          at hnone
        simp at hnone
      · rcases hlk : lookup (get_instr_key inst.txn_fname_pfx_
            (in0.shape.getD 0 0) (in0.shape.getD 1 0)) with _ | blob
        · rw [execute_lookup_fail inst lookup deviceOut t input output in0 in1
              h0 h1 hE hlk] at hnone
          simp at hnone
        · rcases hout : output[0]? with _ | out0
          · rw [execute_out_fail inst lookup deviceOut t input output in0 in1
                blob h0 h1 hE hlk hout] at hnone
            simp at hnone
          · rw [execute_success inst lookup deviceOut t input output in0 in1
                out0 blob h0 h1 hE hlk hout]
            simp [stageSyncC, stageLaunch, stageB, stageA, resetTimers]
  · intro hbad
    rcases hE : isSupportedShape inst in0 with e | b
    · rw [execute_rank_fail inst lookup deviceOut t input output in0 in1 e h0 h1 hE]
      simp [resetTimers]
    · cases b
      · rw [execute_unsupported inst lookup deviceOut t input output in0 in1 h0 h1 hE]
        simp [resetTimers]
      · exact absurd hE hbad

/-- C2 witness: a successful call ends with counter 1; a call with the
unsupported shape (100, 4096) ends with counter 0. -/
theorem claim_C2_witness :
    ((execute testInst lookupAll [] timing0 inp128 outT128).err = none →
      (execute testInst lookupAll [] timing0 inp128 outT128).inst.num_run_aie_ = 1) ∧
    (isSupportedShape testInst (Tensor.mk [100, 4096] []) ≠ Except.ok true →
      (execute testInst lookupAll [] timing0 inpBad outT128).inst.num_run_aie_ = 0) :=
  claim_C2 testInst lookupAll [] timing0 inpBad outT128
    (Tensor.mk [100, 4096] []) (Tensor.mk [4096] []) rfl rfl |>.2
    |> fun h2 =>
      ⟨fun _ => ((claim_C2 testInst lookupAll [] timing0 inp128 outT128
          (Tensor.mk [128, 4096] []) (Tensor.mk [4096] []) rfl rfl).1 (by decide)),
       h2⟩

/-- C4 counterexample: a call rejected by the shape check does mutate the
operator instance — it zeroes the timing/counter fields before validation
(mladfrmsnorm.cpp lines 188-195), here observable as `num_run_aie_` dropping
from 1 to 0 — so the claimed "no partial mutation of the operator instance
state" fails. -/
theorem claim_C4_counterexample :
    (execute testInst lookupAll [] ⟨5, 5, 5, 5, 5, 5, 5⟩ inp128 outT128).inst.num_run_aie_ = 1 ∧
    (execute (execute testInst lookupAll [] ⟨5, 5, 5, 5, 5, 5, 5⟩ inp128 outT128).inst
       lookupAll [] ⟨5, 5, 5, 5, 5, 5, 5⟩ inpBad outT128).err =
      some (ExecError.runtime "Unsupported shape for rmsnorm") ∧
    (execute (execute testInst lookupAll [] ⟨5, 5, 5, 5, 5, 5, 5⟩ inp128 outT128).inst
       lookupAll [] ⟨5, 5, 5, 5, 5, 5, 5⟩ inpBad outT128).inst.num_run_aie_ = 0 := by
  decide

/-- C4 (amended): an `execute` call whose primary input fails shape validation
(unsupported shape or rank other than 2) aborts with an error before any
staging-buffer write, synchronization or hardware launch (empty event trace,
outputs untouched, buffers and sizes untouched), and the only mutation of the
instance is the zeroing of the eight timing/counter fields, which happens
before validation. -/
theorem claim_C4 (inst : RmsNorm) (lookup : String → Option (List Nat))
    (deviceOut : List Nat) (t : Timing) (input output : List Tensor)
    (in0 in1 : Tensor)
    (h0 : input[0]? = some in0) (h1 : input[1]? = some in1)
    (hbad : isSupportedShape inst in0 ≠ Except.ok true) :
    (∃ e, (execute inst lookup deviceOut t input output).err = some e) ∧
    (execute inst lookup deviceOut t input output).trace = [] ∧
    (execute inst lookup deviceOut t input output).outs = output ∧
    (execute inst lookup deviceOut t input output).inst =
      { inst with a_copy_time_ := 0, a_sync_time_ := 0,
                  b_copy_time_ := 0, b_sync_time_ := 0,
                  c_copy_time_ := 0, c_sync_time_ := 0,
                  run_aie_time_ := 0, num_run_aie_ := 0 } := by
  rcases hE : isSupportedShape inst in0 with e | b
  · rw [execute_rank_fail inst lookup deviceOut t input output in0 in1 e h0 h1 hE]
    exact ⟨⟨_, rfl⟩, rfl, rfl, rfl⟩
  · cases b
    · rw [execute_unsupported inst lookup deviceOut t input output in0 in1 h0 h1 hE]
      exact ⟨⟨_, rfl⟩, rfl, rfl, rfl⟩
    · exact absurd hE hbad

/-- C4 witness: the unsupported shape (100, 4096) aborts with an empty trace
and only the timer reset. -/
theorem claim_C4_witness :
    (∃ e, (execute testInst lookupAll [] timing0 inpBad outT128).err = some e) ∧
    (execute testInst lookupAll [] timing0 inpBad outT128).trace = [] ∧
    (execute testInst lookupAll [] timing0 inpBad outT128).outs = outT128 ∧
    (execute testInst lookupAll [] timing0 inpBad outT128).inst =
      { testInst with a_copy_time_ := 0, a_sync_time_ := 0,
                      b_copy_time_ := 0, b_sync_time_ := 0,
                      c_copy_time_ := 0, c_sync_time_ := 0,
                      run_aie_time_ := 0, num_run_aie_ := 0 } :=
  claim_C4 testInst lookupAll [] timing0 inpBad outT128
    (Tensor.mk [100, 4096] []) (Tensor.mk [4096] []) rfl rfl (by decide)

/-- C3: `initialize_const_params` sizes the staging buffers from the
supported-shape table alone — the input-A and output buffers at the maximum
of rows * cols over all supported shapes times the element size, the weight
buffer at the maximum with the row axis (axis 0) skipped, i.e. the maximal
column count, times the element size — and no `execute` call, whatever its
arguments, changes any of the three allocated sizes. -/
theorem claim_C3 (inst : RmsNorm)
    (h : mapFind inst.default_shapes_ "rmsnorm_a16" = some rmsnorm_a16_shapes) :
    ((init_const_params inst).a_bo_size_ =
        ((rmsnorm_a16_shapes.map (fun s => s.1 * s.2)).foldl max 0) *
          inst.operand_dtype_size_ ∧
     (init_const_params inst).c_bo_size_ = (init_const_params inst).a_bo_size_ ∧
     (init_const_params inst).b_bo_size_ =
        ((rmsnorm_a16_shapes.map (fun s => s.2)).foldl max 0) *
          inst.operand_dtype_size_) ∧
    (∀ (lookup : String → Option (List Nat)) (deviceOut : List Nat) (t : Timing)
       (input output : List Tensor),
      (execute (init_const_params inst) lookup deviceOut t input output).inst.a_bo_size_ =
          (init_const_params inst).a_bo_size_ ∧
      (execute (init_const_params inst) lookup deviceOut t input output).inst.b_bo_size_ =
          (init_const_params inst).b_bo_size_ ∧
      (execute (init_const_params inst) lookup deviceOut t input output).inst.c_bo_size_ =
          (init_const_params inst).c_bo_size_) := by
  have e1 : max_element_count_with_skips (rmsnorm_a16_shapes.map tuple_to_vector) [] =
      (rmsnorm_a16_shapes.map (fun s => s.1 * s.2)).foldl max 0 := by
    decide
  have e2 : max_element_count_with_skips (rmsnorm_a16_shapes.map tuple_to_vector) [0] =
      (rmsnorm_a16_shapes.map (fun s => s.2)).foldl max 0 := by
    decide
  refine ⟨⟨?_, ?_, ?_⟩, ?_⟩
  · simp [init_const_params, h, e1]
  · simp [init_const_params]
  · simp [init_const_params, h, e2]
  · intro lookup deviceOut t input output
    rcases hin0 : input[0]? with _ | in0
    · rw [execute_at0_fail (init_const_params inst) lookup deviceOut t input output hin0]
      exact ⟨rfl, rfl, rfl⟩
    · rcases hin1 : input[1]? with _ | in1
      · rw [execute_at1_fail (init_const_params inst) lookup deviceOut t input output
            in0 hin0 hin1]
        exact ⟨rfl, rfl, rfl⟩
      · rcases hE : isSupportedShape (init_const_params inst) in0 with e | b
        · rw [execute_rank_fail (init_const_params inst) lookup deviceOut t input output
              in0 in1 e hin0 hin1 hE]
          simp [resetTimers]
        · cases b
          · rw [execute_unsupported (init_const_params inst) lookup deviceOut t input
                output in0 in1 hin0 hin1 hE]
            simp [resetTimers]
          · rcases hlk : lookup (get_instr_key (init_const_params inst).txn_fname_pfx_
                (in0.shape.getD 0 0) (in0.shape.getD 1 0)) with _ | blob
            · rw [execute_lookup_fail (init_const_params inst) lookup deviceOut t input
                  output in0 in1 hin0 hin1 hE hlk]
              simp [stageB, stageA, resetTimers]
            · rcases hout : output[0]? with _ | out0
              · rw [execute_out_fail (init_const_params inst) lookup deviceOut t input
                    output in0 in1 blob hin0 hin1 hE hlk hout]
                simp [stageSyncC, stageLaunch, stageB, stageA, resetTimers]
              · rw [execute_success (init_const_params inst) lookup deviceOut t input
                    output in0 in1 out0 blob hin0 hin1 hE hlk hout]
                simp [stageSyncC, stageLaunch, stageB, stageA, resetTimers]

/-- C3 witness: on a constructed instance the operand buffers get
2048 * 4096 elements of 2 bytes and the weight buffer 4096 elements, and a
concrete call leaves the sizes unchanged. -/
theorem claim_C3_witness :
    (init_const_params testInst).a_bo_size_ =
      ((rmsnorm_a16_shapes.map (fun s => s.1 * s.2)).foldl max 0) *
        testInst.operand_dtype_size_ ∧
    (execute (init_const_params testInst) lookupAll [] timing0 inp128 outT128).inst.a_bo_size_ =
      (init_const_params testInst).a_bo_size_ :=
  ⟨(claim_C3 testInst rfl).1.1,
   ((claim_C3 testInst rfl).2 lookupAll [] timing0 inp128 outT128).1⟩

/-- C5 counterexample: the byte count of the output copy is not computed from
the output tensor shape — a successful call with primary input (128, 4096)
and an output tensor of shape (1, 1) copies 128 * 4096 * 2 = 1048576 bytes,
not 1 * 1 * 2 (`execute` reuses `operand_size_in_bytes_`, computed from
`input.at(0).shape` at mladfrmsnorm.cpp lines 203-205, for the output memcpy
at line 264). -/
theorem claim_C5_counterexample :
    (execute testInst lookupAll [] timing0 inp128 outT11).err = none ∧
    Event.copyC 1048576 ∈ (execute testInst lookupAll [] timing0 inp128 outT11).trace ∧
    Event.copyC (1 * 1 * 2) ∉ (execute testInst lookupAll [] timing0 inp128 outT11).trace := by
  decide

/-- C5 (amended): in the fetch-outputs stage the number of bytes copied from
the output staging buffer into the caller-supplied output tensor is
`operand_size_in_bytes_`, computed from the actual shape of the primary
*input* tensor (input rows * input cols * element size), for every successful
call and regardless of the shape of the output tensor. -/
theorem claim_C5 (inst : RmsNorm) (lookup : String → Option (List Nat))
    (deviceOut : List Nat) (t : Timing) (input output : List Tensor)
    (in0 in1 out0 : Tensor) (blob : List Nat)
    (h0 : input[0]? = some in0) (h1 : input[1]? = some in1)
    (hs : isSupportedShape inst in0 = Except.ok true)
    (hlk : lookup (get_instr_key inst.txn_fname_pfx_
             (in0.shape.getD 0 0) (in0.shape.getD 1 0)) = some blob)
    (hout : output[0]? = some out0) :
    (execute inst lookup deviceOut t input output).err = none ∧
    (execute inst lookup deviceOut t input output).trace =
      [Event.copyA (running_product_with_skips in0.shape [] * inst.operand_dtype_size_),
       Event.syncA,
       Event.copyB (running_product_with_skips in1.shape [] * inst.operand_dtype_size_),
       Event.syncB, Event.launch, Event.syncC,
       Event.copyC (running_product_with_skips in0.shape [] * inst.operand_dtype_size_)] := by
  rw [execute_success inst lookup deviceOut t input output in0 in1 out0 blob
      h0 h1 hs hlk hout]
  constructor
  · rfl
  · simp [stageA, stageB, resetTimers]

/-- C5 witness: the concrete (128, 4096) call against the (1, 1) output
copies the input-derived byte count. -/
theorem claim_C5_witness :
    (execute testInst lookupAll [] timing0 inp128 outT11).err = none ∧
    (execute testInst lookupAll [] timing0 inp128 outT11).trace =
      [Event.copyA (running_product_with_skips [128, 4096] [] * 2), Event.syncA,
       Event.copyB (running_product_with_skips [4096] [] * 2), Event.syncB,
       Event.launch, Event.syncC,
       Event.copyC (running_product_with_skips [128, 4096] [] * 2)] :=
  claim_C5 testInst lookupAll [] timing0 inp128 outT11
    (Tensor.mk [128, 4096] []) (Tensor.mk [4096] []) (Tensor.mk [1, 1] [7]) [0]
    rfl rfl (by decide) (by decide) rfl

/-- C6 counterexample: the supported-shape list is enumerated and registered
only at the first construction in the process, not at every construction —
`setup_instr_registry` runs under `std::call_once` on the static
`instr_reg_flag_` (mladfrmsnorm.cpp lines 69-70 and 152), so a second
instance constructed with XRT loading enabled triggers no registration. -/
theorem claim_C6_counterexample :
    (rms_norm_ctor "bfloat16" true ⟨0, false, [], 0⟩).proc.setup_calls = 1 ∧
    CEvent.regSetup ∈ (rms_norm_ctor "bfloat16" true ⟨0, false, [], 0⟩).trace ∧
    (rms_norm_ctor "bfloat16" true
      (rms_norm_ctor "bfloat16" true ⟨0, false, [], 0⟩).proc).proc.setup_calls = 1 ∧
    CEvent.regSetup ∉ (rms_norm_ctor "bfloat16" true
      (rms_norm_ctor "bfloat16" true ⟨0, false, [], 0⟩).proc).trace := by
  decide

/-- C6 (amended): when XRT loading is enabled, the first construction in the
process (once-flag still down) enumerates the full supported-shape list for
the variant key and registers one candidate instruction key per shape; every
later construction finds the once-flag up and performs no registration. -/
theorem claim_C6 (p : ProcState) :
    (p.instr_reg_flag_done = false →
      (rms_norm_ctor "bfloat16" true p).proc.registered_keys =
        p.registered_keys ++
          rmsnorm_a16_shapes.map (fun s => get_instr_key "rmsnorm_a16" s.1 s.2) ∧
      (rms_norm_ctor "bfloat16" true p).proc.setup_calls = p.setup_calls + 1 ∧
      CEvent.regSetup ∈ (rms_norm_ctor "bfloat16" true p).trace) ∧
    (p.instr_reg_flag_done = true →
      (rms_norm_ctor "bfloat16" true p).proc.registered_keys = p.registered_keys ∧
      (rms_norm_ctor "bfloat16" true p).proc.setup_calls = p.setup_calls ∧
      CEvent.regSetup ∉ (rms_norm_ctor "bfloat16" true p).trace) := by
  obtain ⟨n, flag, keys, c⟩ := p
  constructor
  · intro hflag
    simp only at hflag
    subst hflag
    refine ⟨rfl, rfl, ?_⟩
    show CEvent.regSetup ∈ [CEvent.devAcquire, CEvent.regSetup]
    simp
  · intro hflag
    simp only at hflag
    subst hflag
    refine ⟨rfl, rfl, ?_⟩
    show CEvent.regSetup ∉ [CEvent.devAcquire]
    simp

/-- C6 witness: a fresh process registers the five keys; a process with the
flag already set registers nothing. -/
theorem claim_C6_witness :
    ((rms_norm_ctor "bfloat16" true ⟨0, false, [], 0⟩).proc.registered_keys =
       [] ++ rmsnorm_a16_shapes.map (fun s => get_instr_key "rmsnorm_a16" s.1 s.2) ∧
     (rms_norm_ctor "bfloat16" true ⟨0, false, [], 0⟩).proc.setup_calls = 0 + 1 ∧
     CEvent.regSetup ∈ (rms_norm_ctor "bfloat16" true ⟨0, false, [], 0⟩).trace) ∧
    ((rms_norm_ctor "bfloat16" true ⟨1, true, [], 1⟩).proc.registered_keys = [] ∧
     (rms_norm_ctor "bfloat16" true ⟨1, true, [], 1⟩).proc.setup_calls = 1 ∧
     CEvent.regSetup ∉ (rms_norm_ctor "bfloat16" true ⟨1, true, [], 1⟩).trace) :=
  ⟨(claim_C6 ⟨0, false, [], 0⟩).1 rfl, (claim_C6 ⟨1, true, [], 1⟩).2 rfl⟩

/-- C7: `get_buffer_reqs` on rank-2 input and output descriptors throws a
shape error exactly when the primary (rows, cols) differs from the output
(rows, cols) or the weight length differs from the column count; otherwise —
as a pure function with no state access — it returns exactly three entries in
order: an input entry of rows * cols * 2 bytes, an input entry of
weight-length * 2 bytes, and an output entry of rows * cols * 2 bytes. -/
theorem claim_C7 (M K Mo Ko w : Nat) (ws d0 d1 dout : List Nat) :
    ((∃ e, get_buffer_reqs [Tensor.mk [M, K] d0, Tensor.mk (w :: ws) d1]
        [Tensor.mk [Mo, Ko] dout] = Except.error e) ↔
      ((M, K) ≠ (Mo, Ko) ∨ w ≠ Ko)) ∧
    ((M, K) = (Mo, Ko) ∧ w = Ko →
      get_buffer_reqs [Tensor.mk [M, K] d0, Tensor.mk (w :: ws) d1]
          [Tensor.mk [Mo, Ko] dout] =
        Except.ok [⟨OpArgType.INPUT, 0, 0, 0, M * K * 2⟩,
                   ⟨OpArgType.INPUT, 1, 1, 0, w * 2⟩,
                   ⟨OpArgType.OUTPUT, 2, 2, 0, M * K * 2⟩]) := by
  constructor
  · constructor
    · rintro ⟨e, he⟩
      by_contra hno
      push_neg at hno
      obtain ⟨hp, hw⟩ := hno
      injection hp with hM hK
      subst Mo
      subst Ko
      subst w
      rw [show get_buffer_reqs [Tensor.mk [M, K] d0, Tensor.mk (K :: ws) d1]
            [Tensor.mk [M, K] dout] =
          Except.ok [⟨OpArgType.INPUT, 0, 0, 0, M * K * 2⟩,
                     ⟨OpArgType.INPUT, 1, 1, 0, K * 2⟩,
                     ⟨OpArgType.OUTPUT, 2, 2, 0, M * K * 2⟩] from by
        simp [get_buffer_reqs, extract_MK, tuple_to_vector, running_product_pair]] at he
      exact absurd he (by simp)
    · intro hor
      rcases eq_or_ne (M, K) (Mo, Ko) with h1 | h1
      · rcases hor with hne | hne
        · exact absurd h1 hne
        · injection h1 with hM hK
          subst Mo
          subst Ko
          refine ⟨ExecError.runtime
            "Mismatched shape between rmsnorm weights and activation/result not supported for rmsnorm", ?_⟩
          simp [get_buffer_reqs, extract_MK, Ne.symm hne]
      · refine ⟨ExecError.runtime
          "mismatch shape of activation and result not supported for rmsnorm\n", ?_⟩
        simp [get_buffer_reqs, extract_MK, h1]
  · rintro ⟨hp, hw⟩
    injection hp with hM hK
    subst Mo
    subst Ko
    subst w
    simp [get_buffer_reqs, extract_MK, tuple_to_vector, running_product_pair]

/-- C7 witness: matched shapes (128, 4096) with weight length 4096 give the
three sized entries; a weight length of 2048 gives a shape error (scenario C
of the spec). -/
theorem claim_C7_witness :
    get_buffer_reqs [Tensor.mk [128, 4096] [], Tensor.mk [4096] []]
        [Tensor.mk [128, 4096] []] =
      Except.ok [⟨OpArgType.INPUT, 0, 0, 0, 128 * 4096 * 2⟩,
                 ⟨OpArgType.INPUT, 1, 1, 0, 4096 * 2⟩,
                 ⟨OpArgType.OUTPUT, 2, 2, 0, 128 * 4096 * 2⟩] ∧
    (∃ e, get_buffer_reqs [Tensor.mk [128, 4096] [], Tensor.mk [2048] []]
        [Tensor.mk [128, 4096] []] = Except.error e) :=
  ⟨(claim_C7 128 4096 128 4096 4096 [] [] [] []).2 ⟨rfl, rfl⟩,
   (claim_C7 128 4096 128 4096 2048 [] [] [] []).1.2 (Or.inr (by decide))⟩

/-- C9: when the instruction-key lookup fails, the error is raised only after
both input staging copies and their host-to-device synchronizations (the
trace is exactly copy-A, sync-A, copy-B, sync-B), no hardware launch occurs,
both staging buffers retain the bytes staged by that very call, and the
instance remains usable: a subsequent call on the resulting instance with a
supported shape, a successful lookup and an output tensor present completes
without error. -/
theorem claim_C9 (inst : RmsNorm)
    (lookup lookup2 : String → Option (List Nat)) (deviceOut deviceOut2 : List Nat)
    (t t2 : Timing) (input output input2 output2 : List Tensor)
    (in0 in1 in0x in1x out0x : Tensor) (blob : List Nat)
    (h0 : input[0]? = some in0) (h1 : input[1]? = some in1)
    (hs : isSupportedShape inst in0 = Except.ok true)
    (hlk : lookup (get_instr_key inst.txn_fname_pfx_
             (in0.shape.getD 0 0) (in0.shape.getD 1 0)) = none)
    (h0x : input2[0]? = some in0x) (h1x : input2[1]? = some in1x)
    (hsx : isSupportedShape inst in0x = Except.ok true)
    (hlkx : lookup2 (get_instr_key inst.txn_fname_pfx_
              (in0x.shape.getD 0 0) (in0x.shape.getD 1 0)) = some blob)
    (houtx : output2[0]? = some out0x) :
    (∃ e, (execute inst lookup deviceOut t input output).err = some e) ∧
    (execute inst lookup deviceOut t input output).trace =
      [Event.copyA (running_product_with_skips in0.shape [] * inst.operand_dtype_size_),
       Event.syncA,
       Event.copyB (running_product_with_skips in1.shape [] * inst.operand_dtype_size_),
       Event.syncB] ∧
    Event.launch ∉ (execute inst lookup deviceOut t input output).trace ∧
    (execute inst lookup deviceOut t input output).inst.a_bo_ =
      memcpy_elems inst.a_bo_ in0.data (running_product_with_skips in0.shape []) ∧
    (execute inst lookup deviceOut t input output).inst.b_bo_ =
      memcpy_elems inst.b_bo_ in1.data (running_product_with_skips in1.shape []) ∧
    (execute (execute inst lookup deviceOut t input output).inst
       lookup2 deviceOut2 t2 input2 output2).err = none := by
  rw [execute_lookup_fail inst lookup deviceOut t input output in0 in1 h0 h1 hs hlk]
  refine ⟨⟨_, rfl⟩, ?_, ?_, ?_, ?_, ?_⟩
  · simp [stageB, stageA, resetTimers]
  · simp [stageB, stageA, resetTimers]
  · simp [stageB, stageA, resetTimers]
  · simp [stageB, stageA, resetTimers]
  · rw [execute_success (stageB (stageA (resetTimers inst) in0 t) in1 t)
        lookup2 deviceOut2 t2 input2 output2 in0x in1x out0x blob
        h0x h1x (by exact hsx) (by exact hlkx) houtx]

/-- C9 witness: a concrete failed-lookup call stages both inputs and raises no
launch, and the same instance then completes a valid call. -/
theorem claim_C9_witness :
    (∃ e, (execute testInst lookupNone [] timing0 inp128 outT128).err = some e) ∧
    (execute testInst lookupNone [] timing0 inp128 outT128).trace =
      [Event.copyA (running_product_with_skips [128, 4096] [] * 2), Event.syncA,
       Event.copyB (running_product_with_skips [4096] [] * 2), Event.syncB] ∧
    Event.launch ∉ (execute testInst lookupNone [] timing0 inp128 outT128).trace ∧
    (execute testInst lookupNone [] timing0 inp128 outT128).inst.a_bo_ =
      memcpy_elems testInst.a_bo_ [] (running_product_with_skips [128, 4096] []) ∧
    (execute testInst lookupNone [] timing0 inp128 outT128).inst.b_bo_ =
      memcpy_elems testInst.b_bo_ [] (running_product_with_skips [4096] []) ∧
    (execute (execute testInst lookupNone [] timing0 inp128 outT128).inst
       lookupAll [] timing0 inp128 outT128).err = none :=
  claim_C9 testInst lookupNone lookupAll [] [] timing0 timing0
    inp128 outT128 inp128 outT128
    (Tensor.mk [128, 4096] []) (Tensor.mk [4096] [])
    (Tensor.mk [128, 4096] []) (Tensor.mk [4096] []) (Tensor.mk [128, 4096] []) [0]
    rfl rfl (by decide) rfl rfl rfl (by decide) (by decide) rfl

end RyzenAI

